import Mathlib

/-!
Shallow embedding of the stepper-motor controller from this repository.
The repository contains two near-duplicate variants of the class
StepperMotor: the file StepperMotor.py (namespace SM below) and the file
BlinkLed.py (namespace BL below).  Methods whose bodies are character-for-
character identical in the two files (enableMotor, disableMotor,
reverseDirections, setMicroStep, homeMotorReverse, homeMotorForward) are
modelled once; methods that differ (the constructor, moveSteps versus
step, setSpeed) are modelled per variant.

Python effects are made explicit:
  - `sys.exit(1)` becomes `PyResult.sysExit 1`;
  - reading an attribute that was never assigned (the `self.position`
    attribute, which no constructor ever sets) raises `AttributeError`,
    modelled as `PyResult.attrError`;
  - `print` output is purely observational (spec section 6) and is not
    modelled as state;
  - digital pin levels, the number of emitted step pulses and the PWM
    frequency handed to the pulse generator are recorded as state fields
    so that pin effects are observable.
Real numbers of the Python code are modelled by `ℚ` (all values reached
in this development are exact).
-/

set_option autoImplicit false

/-- Outcome of running a Python method body: normal return of the mutated
object state, process termination via `sys.exit`, or an uncaught
`AttributeError` from reading a never-assigned attribute. -/
inductive PyResult (α : Type) where
  | ok : α → PyResult α
  | sysExit : Nat → PyResult α
  | attrError : PyResult α
  deriving Repr, DecidableEq

namespace PyResult

variable {α β : Type}

/-- Sequencing of method bodies: an exit or exception propagates. -/
def bind : PyResult α → (α → PyResult β) → PyResult β
  | ok a, f => f a
  | sysExit n, _ => sysExit n
  | attrError, _ => attrError

/-- Map over the normal-return value. -/
def map (f : α → β) : PyResult α → PyResult β
  | ok a => ok (f a)
  | sysExit n => sysExit n
  | attrError => attrError

/-- True when the call did not return normally (process exit or
uncaught exception). -/
def isFailure : PyResult α → Bool
  | ok _ => false
  | sysExit _ => true
  | attrError => true

end PyResult

/-- State of one StepperMotor object together with the observable pin and
pulse-generator effects.  Fields mirror the attributes assigned in
`__init__` and in the methods; `position` is `none` while the Python
attribute `self.position` has never been assigned. -/
structure MotorState where
  stepPin : Nat
  dirPin : Nat
  disablePin : Nat
  homingPin : Option Nat
  currentPosition : Option Int
  currentSpeed : Option ℚ
  position : Option Int
  speed : Option ℚ
  stepDivider : Int
  MAX_RPM : ℚ
  direction : Int
  stepPinLevel : Nat
  dirPinLevel : Nat
  disablePinLevel : Nat
  homingInputPullUp : Bool
  pulsesEmitted : Nat
  pwmFreq : Option ℚ
  deriving Repr, DecidableEq

/-- Valid microstep dividers, from `VALID_MICROSTEPS = {1, 2, 4, 8, 16}`. -/
def VALID_MICROSTEPS : List Int := [1, 2, 4, 8, 16]

/-- MicroPython `Pin.value(v)` coerces its argument to a logic level by
truthiness: zero drives the pin low, any non-zero value drives it high. -/
def pyTruthLevel (v : Int) : Nat := if v = 0 then 0 else 1

/-- Python `int()` applied to a real number truncates toward zero:
ceiling for negative arguments, floor otherwise. -/
def pyInt (q : ℚ) : Int := if q < 0 then ⌈q⌉ else ⌊q⌋

/-- Whether the driver output stage is active.  The source keeps no
separate boolean; the spec's `enabled` flag (section 3) abstracts the
level written to the disable pin: active-low, so level 0 means enabled. -/
def MotorState.enabled (st : MotorState) : Bool := st.disablePinLevel == 0

/-- Method `enableMotor` (identical in both files): drives the disable
pin low. -/
def enableMotor (st : MotorState) : MotorState :=
  { st with disablePinLevel := 0 }

/-- Method `disableMotor` (identical in both files): drives the disable
pin high. -/
def disableMotor (st : MotorState) : MotorState :=
  { st with disablePinLevel := 1 }

/-- Method `reverseDirections` (identical in both files):
`self.direction = -self.direction`. -/
def reverseDirections (st : MotorState) : MotorState :=
  { st with direction := -st.direction }

/-- Method `setMicroStep` (identical in both files): if the divider is
not in `VALID_MICROSTEPS` the code prints an error and calls
`sys.exit(1)`; otherwise it assigns `self.stepDivider`. -/
def setMicroStep (st : MotorState) (stepDivider : Int) : PyResult MotorState :=
  if stepDivider ∈ VALID_MICROSTEPS then
    .ok { st with stepDivider := stepDivider }
  else
    .sysExit 1

namespace SM

/-- Constructor of `StepperMotor` in StepperMotor.py.  The Python
parameter order is `(homingPin=None, stepPin=None, dirPin=None,
disablePin=None)`; arguments are passed here as step, dir, disable,
homing.  Missing step/dir/disable pins cause `sys.exit(1)`.  On success
the step and direction pins are configured as outputs at level 0, the
disable pin as an output at level 1, and the homing pin (when given) as
an input with pull-up. -/
def init (sp0 dp0 ds0 hp0 : Option Nat) : PyResult MotorState :=
  match sp0, dp0, ds0 with
  | some sp, some dp, some ds =>
      .ok { stepPin := sp, dirPin := dp, disablePin := ds, homingPin := hp0,
            currentPosition := none, currentSpeed := none,
            position := none, speed := none,
            stepDivider := 1, MAX_RPM := 600, direction := 1,
            stepPinLevel := 0, dirPinLevel := 0, disablePinLevel := 1,
            homingInputPullUp := hp0.isSome,
            pulsesEmitted := 0, pwmFreq := none }
  | _, _, _ => .sysExit 1

/-- Method `moveSteps` of StepperMotor.py: emits `abs(steps)` pulses on
the step pin (each high then low), then prints a message that reads
`self.position` — raising `AttributeError` when that attribute was never
assigned.  The method never writes `self.position`. -/
def moveSteps (st : MotorState) (steps : Int) : PyResult MotorState :=
  let st1 :=
    if steps.natAbs = 0 then st
    else { st with stepPinLevel := 0,
                   pulsesEmitted := st.pulsesEmitted + steps.natAbs }
  match st1.position with
  | none => .attrError
  | some _ => .ok st1

/-- Method `setSpeed` of StepperMotor.py: first overwrites `self.speed`
with the derived step frequency `rpm * 200 * stepDivider / 60`, then
compares that signed value (not its absolute value) against
`MAX_RPM * stepsPerRevolution / 60` and calls `sys.exit(1)` when it is
greater; otherwise starts PWM at `self.speed` on the step pin, sets the
direction pin from the sign of `rpm * direction` and assigns
`self.currentSpeed = rpm`. -/
def setSpeed (st : MotorState) (rpm : ℚ) : PyResult MotorState :=
  let steps_per_revolution : ℚ := 200 * st.stepDivider
  let sp : ℚ := rpm * steps_per_revolution / 60
  let st1 := { st with speed := some sp }
  if sp > st.MAX_RPM * steps_per_revolution / 60 then
    .sysExit 1
  else
    .ok { st1 with pwmFreq := some sp,
                   dirPinLevel := if rpm * st.direction < 0 then 1 else 0,
                   currentSpeed := some rpm }

/-- Method `homeMotorReverse` (same body in both files; Python default
speed is -60): without a homing pin it prints an error and returns
normally with the object untouched; with one it calls
`setSpeed(speed)` (whose `sys.exit` propagates) and then assigns
`self.position = 0`. -/
def homeMotorReverse (st : MotorState) (speed : ℚ) : PyResult MotorState :=
  match st.homingPin with
  | none => .ok st
  | some _ =>
      (setSpeed st speed).bind fun s => .ok { s with position := some 0 }

/-- Method `homeMotorForward` (same body in both files; Python default
speed is 60): without a homing pin it prints an error and returns
normally; with one it assigns `self.position = 0` without calling
`setSpeed` and without emitting pulses.  The speed argument is unused. -/
def homeMotorForward (st : MotorState) (_speed : ℚ) : PyResult MotorState :=
  match st.homingPin with
  | none => .ok st
  | some _ => .ok { st with position := some 0 }

end SM

namespace BL

/-- Constructor of `StepperMotor` in BlinkLed.py, parameter order
`(stepPin, dirPin, disablePin, homingPin, counterPin)`; the `counterPin`
parameter is never used and is omitted.  Identical to the StepperMotor.py
constructor except that the direction pin is initialized to level 1
(`self.dirPin.value(1)`). -/
def init (sp0 dp0 ds0 hp0 : Option Nat) : PyResult MotorState :=
  match sp0, dp0, ds0 with
  | some sp, some dp, some ds =>
      .ok { stepPin := sp, dirPin := dp, disablePin := ds, homingPin := hp0,
            currentPosition := none, currentSpeed := none,
            position := none, speed := none,
            stepDivider := 1, MAX_RPM := 600, direction := 1,
            stepPinLevel := 0, dirPinLevel := 1, disablePinLevel := 1,
            homingInputPullUp := hp0.isSome,
            pulsesEmitted := 0, pwmFreq := none }
  | _, _, _ => .sysExit 1

/-- Method `step` of BlinkLed.py: for positive steps it writes
`self.direction` to the direction pin (truthiness coercion) and pulses;
for negative steps it writes `-self.direction` and pulses; in every case
(including `steps == 0`) it then executes
`self.position += steps * self.direction`, which raises
`AttributeError` when `self.position` was never assigned. -/
def step (st : MotorState) (steps : Int) : PyResult MotorState :=
  let st1 :=
    if steps > 0 then
      { st with dirPinLevel := pyTruthLevel st.direction,
                stepPinLevel := 0,
                pulsesEmitted := st.pulsesEmitted + steps.natAbs }
    else if steps < 0 then
      { st with dirPinLevel := pyTruthLevel (-st.direction),
                stepPinLevel := 0,
                pulsesEmitted := st.pulsesEmitted + steps.natAbs }
    else st
  match st1.position with
  | none => .attrError
  | some p => .ok { st1 with position := some (p + steps * st1.direction) }

/-- Method `setSpeed` of BlinkLed.py: same limit check and state updates
as the StepperMotor.py variant, except the PWM frequency is
`int(self.speed)` (truncation toward zero). -/
def setSpeed (st : MotorState) (rpm : ℚ) : PyResult MotorState :=
  let steps_per_revolution : ℚ := 200 * st.stepDivider
  let sp : ℚ := rpm * steps_per_revolution / 60
  let st1 := { st with speed := some sp }
  if sp > st.MAX_RPM * steps_per_revolution / 60 then
    .sysExit 1
  else
    .ok { st1 with pwmFreq := some ((pyInt sp : Int) : ℚ),
                   dirPinLevel := if rpm * st.direction < 0 then 1 else 0,
                   currentSpeed := some rpm }

end BL

/-- State of a freshly constructed StepperMotor.py controller with pins
step 17, dir 16, disable 7, homing 4 (the wiring of the repository's
example script). -/
def smFresh : MotorState :=
  { stepPin := 17, dirPin := 16, disablePin := 7, homingPin := some 4,
    currentPosition := none, currentSpeed := none,
    position := none, speed := none,
    stepDivider := 1, MAX_RPM := 600, direction := 1,
    stepPinLevel := 0, dirPinLevel := 0, disablePinLevel := 1,
    homingInputPullUp := true, pulsesEmitted := 0, pwmFreq := none }

/-- State of a freshly constructed BlinkLed.py controller with the same
pins (direction pin initialized high in that variant). -/
def blFresh : MotorState :=
  { smFresh with dirPinLevel := 1 }

/-- A StepperMotor.py controller constructed without a homing pin. -/
def smNoHoming : MotorState :=
  { smFresh with homingPin := none, homingInputPullUp := false }

/-- State of the StepperMotor.py controller after a successful
`setSpeed(60)` from the fresh state: derived frequency 200 steps/sec. -/
def smFreshSped : MotorState :=
  { smFresh with
      speed := some 200, pwmFreq := some 200,
      dirPinLevel := 0, currentSpeed := some 60 }

theorem smFresh_from_init :
    SM.init (some 17) (some 16) (some 7) (some 4) = .ok smFresh := rfl

theorem blFresh_from_init :
    BL.init (some 17) (some 16) (some 7) (some 4) = .ok blFresh := rfl

theorem smNoHoming_from_init :
    SM.init (some 17) (some 16) (some 7) none = .ok smNoHoming := rfl

/-- Claim C1 (code_bug evidence).  The claim states that every rpm with
abs(rpm) > 600 is rejected with a recoverable SpeedExceedsLimit error and
no state change.  The code instead compares the signed derived frequency:
setSpeed(-700) succeeds and updates currentSpeed (and speed, pwm,
direction pin), while setSpeed(700) terminates the process via
sys.exit(1) rather than returning a recoverable error — in both source
variants. -/
theorem c1_setSpeed_code_eval :
    SM.setSpeed smFresh (-700) =
      .ok { smFresh with
              speed := some (-7000/3), pwmFreq := some (-7000/3),
              dirPinLevel := 1, currentSpeed := some (-700) } ∧
    SM.setSpeed smFresh 700 = .sysExit 1 ∧
    BL.setSpeed blFresh (-700) =
      .ok { blFresh with
              speed := some (-7000/3), pwmFreq := some (-2333),
              dirPinLevel := 1, currentSpeed := some (-700) } ∧
    BL.setSpeed blFresh 700 = .sysExit 1 := by
  refine ⟨?_, ?_, ?_, ?_⟩ <;>
    norm_num [SM.setSpeed, BL.setSpeed, smFresh, blFresh, pyInt, Int.ceil_neg]

/-- Claim C2 (code_bug evidence).  Every valid divider in {1,2,4,8,16}
is accepted and read back from stepDivider; every other integer makes
setMicroStep terminate the whole process with sys.exit(1) instead of
returning a recoverable InvalidMicrostep error to the caller. -/
theorem c2_setMicroStep_code_eval (st : MotorState) :
    setMicroStep st 1 = .ok { st with stepDivider := 1 } ∧
    setMicroStep st 2 = .ok { st with stepDivider := 2 } ∧
    setMicroStep st 4 = .ok { st with stepDivider := 4 } ∧
    setMicroStep st 8 = .ok { st with stepDivider := 8 } ∧
    setMicroStep st 16 = .ok { st with stepDivider := 16 } ∧
    setMicroStep st 3 = .sysExit 1 ∧
    setMicroStep st 0 = .sysExit 1 ∧
    setMicroStep st (-4) = .sysExit 1 := by
  refine ⟨?_, ?_, ?_, ?_, ?_, ?_, ?_, ?_⟩ <;>
    simp [setMicroStep, VALID_MICROSTEPS]

/-- Claim C3 (code_bug evidence).  Neither constructor ever assigns the
position attribute (it stays absent), so the first move call —
moveSteps(1) in StepperMotor.py, step(1) or even step(0) in BlinkLed.py —
raises AttributeError instead of completing, contradicting the claim
that position is initialized to 0 at construction. -/
theorem c3_position_unset :
    smFresh.position = none ∧ blFresh.position = none ∧
    SM.moveSteps smFresh 1 = .attrError ∧
    BL.step blFresh 1 = .attrError ∧
    BL.step blFresh 0 = .attrError :=
  ⟨rfl, rfl, rfl, rfl, rfl⟩

/-- Claim C4 (code_bug evidence).  From a homed state (position = 0),
StepperMotor.py's moveSteps(5) emits 5 pulses but leaves position at 0
(it never writes self.position, despite printing a "New position"),
while BlinkLed.py's step(5) updates position to 5 = steps * direction as
the claim states. -/
theorem c4_moveSteps_code_eval :
    SM.moveSteps { smFresh with position := some 0 } 5 =
      .ok { smFresh with position := some 0, pulsesEmitted := 5 } ∧
    (SM.moveSteps { smFresh with position := some 0 } 5).map
      MotorState.position = .ok (some 0) ∧
    BL.step { blFresh with position := some 0 } 5 =
      .ok { blFresh with
              position := some 5, pulsesEmitted := 5, dirPinLevel := 1 } :=
  ⟨rfl, rfl, rfl⟩

/-- Claim C5 (counterexample).  The derived step frequency IS stored as
its own field: setSpeed(60) at divider 1 stores speed = 200, and a
following setMicroStep(2) leaves that stored field at 200 while
rpm * 200 * microstepDivider / 60 = 60 * 400 / 60 = 400, so the stored
field diverges from the claimed value. -/
theorem c5_counterexample :
    SM.setSpeed smFresh 60 = .ok smFreshSped ∧
    setMicroStep smFreshSped 2 = .ok { smFreshSped with stepDivider := 2 } ∧
    ({ smFreshSped with stepDivider := 2 } : MotorState).speed = some 200 ∧
    ({ smFreshSped with stepDivider := 2 } : MotorState).currentSpeed =
      some 60 ∧
    (60 : ℚ) * (200 * 2) / 60 = 400 ∧ ((200 : ℚ) ≠ 400) := by
  refine ⟨?_, ?_, rfl, rfl, by norm_num, by norm_num⟩
  · norm_num [SM.setSpeed, smFresh, smFreshSped]
  · simp [setMicroStep, VALID_MICROSTEPS]

/-- Claim C5 (amended).  The derived frequency is stored in the field
speed, recomputed from rpm and the current divider on every setSpeed
call: after any successful setSpeed(rpm) the stored speed equals
rpm * 200 * microstepDivider / 60 and currentSpeed equals rpm (it can
diverge only between a later setMicroStep and the next setSpeed). -/
theorem c5_speed_recomputed (st st' : MotorState) (rpm : ℚ)
    (h : SM.setSpeed st rpm = .ok st') :
    st'.speed = some (rpm * (200 * st'.stepDivider) / 60) ∧
    st'.currentSpeed = some rpm := by
  simp only [SM.setSpeed] at h
  split at h
  · exact PyResult.noConfusion h
  · injection h with h'
    subst h'
    exact ⟨rfl, rfl⟩

/-- Claim C5 (witness): the amended theorem at the fresh StepperMotor.py
state with rpm = 60. -/
theorem c5_witness :
    smFreshSped.speed =
      some ((60 : ℚ) * (200 * (smFreshSped.stepDivider : ℚ)) / 60) ∧
    smFreshSped.currentSpeed = some 60 :=
  c5_speed_recomputed smFresh smFreshSped 60
    (by norm_num [SM.setSpeed, smFresh, smFreshSped])

/-- Claim C6 (counterexample).  The BlinkLed.py constructor initializes
the direction pin to logic level 1, not 0 as the claim states for both
variants. -/
theorem c6_counterexample :
    BL.init (some 17) (some 16) (some 7) (some 4) = .ok blFresh ∧
    blFresh.dirPinLevel = 1 ∧ ¬ blFresh.dirPinLevel = 0 := by
  refine ⟨rfl, rfl, by decide⟩

/-- Claim C6 (amended).  Successful construction configures the step pin
at level 0, the direction pin at level 0 in StepperMotor.py but at
level 1 in BlinkLed.py, the disable pin at the disabled level 1, the
homing input with pull-up exactly when a homing pin was supplied, and
defaults direction = 1, divider = 1, speed undefined, enabled = false. -/
theorem c6_construction_defaults (s d ds : Nat) (h : Option Nat) :
    (SM.init (some s) (some d) (some ds) h).map (fun st =>
        (st.stepPinLevel, st.dirPinLevel, st.disablePinLevel,
         st.homingInputPullUp, st.direction, st.stepDivider,
         st.currentSpeed, st.enabled)) =
      .ok (0, 0, 1, h.isSome, 1, 1, none, false) ∧
    (BL.init (some s) (some d) (some ds) h).map (fun st =>
        (st.stepPinLevel, st.dirPinLevel, st.disablePinLevel,
         st.homingInputPullUp, st.direction, st.stepDivider,
         st.currentSpeed, st.enabled)) =
      .ok (0, 1, 1, h.isSome, 1, 1, none, false) :=
  ⟨rfl, rfl⟩

/-- Claim C7 (counterexample).  With no homing pin configured, both
homing methods return normally (no error result, no exit, no exception):
the failure predicate is false and the state is returned unchanged, so
the claimed NotConfigured error never reaches the caller. -/
theorem c7_counterexample :
    (SM.homeMotorReverse smNoHoming (-60)).isFailure = false ∧
    (SM.homeMotorForward smNoHoming 60).isFailure = false ∧
    SM.homeMotorReverse smNoHoming (-60) = .ok smNoHoming ∧
    SM.homeMotorForward smNoHoming 60 = .ok smNoHoming :=
  ⟨rfl, rfl, rfl, rfl⟩

/-- Claim C7 (amended).  Without a homing pin, homeMotorReverse and
homeMotorForward print an error message and return early, leaving
position and every other field unchanged; the failure is not fatal but
also surfaces no error value to the caller. -/
theorem c7_home_without_pin (st : MotorState) (spd spd2 : ℚ)
    (h : st.homingPin = none) :
    SM.homeMotorReverse st spd = .ok st ∧
    SM.homeMotorForward st spd2 = .ok st := by
  unfold SM.homeMotorReverse SM.homeMotorForward
  rw [h]
  exact ⟨rfl, rfl⟩

/-- Claim C7 (witness): the amended theorem at a concrete controller
constructed without a homing pin. -/
theorem c7_witness :
    SM.homeMotorReverse smNoHoming (-60) = .ok smNoHoming ∧
    SM.homeMotorForward smNoHoming 60 = .ok smNoHoming :=
  c7_home_without_pin smNoHoming (-60) 60 rfl

/-- Claim C8.  With a homing pin configured, homeMotorReverse is exactly
setSpeed(speed) followed (on success) by resetting position to 0, with a
setSpeed failure propagated; homeMotorForward only resets position to 0,
changing no pin, no pulse count and no speed state. -/
theorem c8_homing_behavior (st : MotorState) (spd spd2 : ℚ) (p : Nat)
    (h : st.homingPin = some p) :
    SM.homeMotorReverse st spd =
      (SM.setSpeed st spd).bind (fun s => .ok { s with position := some 0 }) ∧
    SM.homeMotorForward st spd2 = .ok { st with position := some 0 } := by
  unfold SM.homeMotorReverse SM.homeMotorForward
  rw [h]
  exact ⟨rfl, rfl⟩

/-- Claim C8 (witness): the theorem at the fresh controller with homing
pin 4 and the Python default speeds -60 and 60. -/
theorem c8_witness :
    SM.homeMotorReverse smFresh (-60) =
      (SM.setSpeed smFresh (-60)).bind
        (fun s => .ok { s with position := some 0 }) ∧
    SM.homeMotorForward smFresh 60 = .ok { smFresh with position := some 0 } :=
  c8_homing_behavior smFresh (-60) 60 4 rfl

/-- Claim C9.  reverseDirections only negates the direction field (no
pin level, no other field changes), two applications restore the state
exactly, and a subsequent move — moveSteps in StepperMotor.py or step in
BlinkLed.py — behaves identically to one issued without any reversal. -/
theorem c9_reverseDirections (st : MotorState) (n : Int) :
    reverseDirections st = { st with direction := -st.direction } ∧
    reverseDirections (reverseDirections st) = st ∧
    SM.moveSteps (reverseDirections (reverseDirections st)) n =
      SM.moveSteps st n ∧
    BL.step (reverseDirections (reverseDirections st)) n = BL.step st n := by
  have h2 : reverseDirections (reverseDirections st) = st := by
    simp [reverseDirections]
  exact ⟨rfl, h2, by rw [h2], by rw [h2]⟩

/-- Claim C10.  enableMotor drives the disable pin to 0 (so the derived
enabled flag is true) and disableMotor drives it to 1 (enabled false);
both touch no other field and are idempotent. -/
theorem c10_enable_disable (st : MotorState) :
    enableMotor st = { st with disablePinLevel := 0 } ∧
    (enableMotor st).enabled = true ∧
    enableMotor (enableMotor st) = enableMotor st ∧
    disableMotor st = { st with disablePinLevel := 1 } ∧
    (disableMotor st).enabled = false ∧
    disableMotor (disableMotor st) = disableMotor st :=
  ⟨rfl, rfl, rfl, rfl, rfl, rfl⟩
